import Mathlib

/-!
Shallow embedding of the mothra network-behaviour core
(`src/core/network/src/behaviour/mod.rs`, `src/core/network/src/rpc/mod.rs`,
`src/core/network/src/types/globals.rs`).

The composite `Behaviour` state machine is modelled as a Lean structure; each
Rust method becomes a function threading that structure.  Side effects on the
peer manager are recorded as an append-only call log, and the sub-behaviour
action queues (`RPC.events`, `Behaviour.events`) are explicit lists, exactly as
in the source (`Vec` with `push` at the back and `remove(0)` at the front).
Opaque libp2p identifiers (`PeerId`, `ConnectionId`, `SubstreamId`,
`MessageId`, `TopicHash`, `Multiaddr`) are modelled as `Nat`; byte vectors
(`Vec<u8>`) as `List Nat`.
-/

namespace Mothra

/-- Opaque stable identifier of a remote peer (libp2p `PeerId`). -/
abbrev PeerId := Nat

/-- Identifier of one transport connection to a peer (libp2p `ConnectionId`). -/
abbrev ConnectionId := Nat

/-- Identifier of one inbound request substream within a connection
(`rpc::handler::SubstreamId`, declared in `rpc/handler.rs`; used opaquely by
the behaviour). -/
abbrev SubstreamId := Nat

/-- `pub type PeerRequestId = (ConnectionId, SubstreamId);`
(`behaviour/mod.rs`). -/
abbrev PeerRequestId := ConnectionId × SubstreamId

/-- Gossipsub message id (libp2p `MessageId`), opaque to the core. -/
abbrev MessageId := Nat

/-- Gossipsub topic hash (libp2p `TopicHash`), opaque to the core. -/
abbrev TopicHash := Nat

/-- Multiaddress (libp2p `Multiaddr`), opaque to the core. -/
abbrev Multiaddr := Nat

/-- A gossipsub topic (`types::GossipTopic`); the core only uses its equality
and its set membership, so it is modelled opaquely. -/
abbrev GossipTopic := Nat

/-- `methods::RequestId` (declared in `rpc/methods.rs`): an
application-chosen identifier for outbound requests plus the reserved
sentinel variant `Behaviour` used for requests originating inside the core
(`RequestId::Behaviour` in `behaviour/mod.rs` and `rpc/mod.rs`). -/
inductive RequestId where
  | application (n : Nat)
  | behaviour
deriving DecidableEq, Repr

/-- `protocol::Protocol` (declared in `rpc/protocol.rs`): the RPC protocol a
message or error belongs to; used opaquely by the behaviour. -/
inductive Protocol where
  | status
  | goodbye
  | ping
  | metaData
deriving DecidableEq, Repr

/-- `protocol::RPCError` (declared in `rpc/protocol.rs`): the behaviour only
inspects the `HandlerRejected` variant, all others are passed through
opaquely. -/
inductive RPCError where
  | handlerRejected
  | streamTimeout
  | custom (n : Nat)
deriving DecidableEq, Repr

/-- `protocol::RPCRequest` (declared in `rpc/protocol.rs`): the request
variants the behaviour constructs and matches on
(`Ping`, `MetaData`, `Goodbye`, `Status`). -/
inductive RPCRequest where
  | ping (data : List Nat)
  | metaData
  | goodbye (reason : List Nat)
  | status (msg : List Nat)
deriving DecidableEq, Repr

/-- `methods::RPCResponse` (declared in `rpc/methods.rs`): the response
variants the behaviour constructs and matches on
(`Pong`, `MetaData`, `Status`). -/
inductive RPCResponse where
  | pong (data : List Nat)
  | metaData (data : List Nat)
  | status (msg : List Nat)
deriving DecidableEq, Repr

/-- `methods::RPCCodedResponse` (declared in `rpc/methods.rs`): a successful
response payload or an error code with a reason
(`RPCCodedResponse::Success`, `RPCCodedResponse::from_error_code`). -/
inductive RPCCodedResponse where
  | success (resp : RPCResponse)
  | fromErrorCode (code : Nat) (reason : List Nat)
deriving DecidableEq, Repr

/-- `handler::HandlerErr` (declared in `rpc/handler.rs`): an error on an
inbound request substream, or failure of a request we originated. -/
inductive HandlerErr where
  | inbound (id : SubstreamId) (proto : Protocol) (error : RPCError)
  | outbound (id : RequestId) (proto : Protocol) (error : RPCError)
deriving DecidableEq, Repr

/-- `RPCReceived` (`rpc/mod.rs`): an inbound request stamped with its
substream id, or a response carrying the application-given request id. -/
inductive RPCReceived where
  | request (id : SubstreamId) (req : RPCRequest)
  | response (id : RequestId) (resp : RPCResponse)
deriving DecidableEq, Repr

/-- `RPCSend` (`rpc/mod.rs`): outbound RPC events from the client to a
handler. -/
inductive RPCSend where
  | request (id : RequestId) (req : RPCRequest)
  | response (id : SubstreamId) (resp : RPCCodedResponse)
deriving DecidableEq, Repr

instance {ε α : Type} [DecidableEq ε] [DecidableEq α] :
    DecidableEq (Except ε α) := fun x y =>
  match x, y with
  | .error a, .error b =>
      if h : a = b then .isTrue (by rw [h])
      else .isFalse (by intro hh; cases hh; exact h rfl)
  | .error _, .ok _ => .isFalse (by intro hh; cases hh)
  | .ok _, .error _ => .isFalse (by intro hh; cases hh)
  | .ok a, .ok b =>
      if h : a = b then .isTrue (by rw [h])
      else .isFalse (by intro hh; cases hh; exact h rfl)

/-- `RPCMessage` (`rpc/mod.rs`): the event surfaced to the behaviour;
`event` is Rust's `Result<RPCReceived, HandlerErr>`. -/
structure RPCMessage where
  peer_id : PeerId
  conn_id : ConnectionId
  event : Except HandlerErr RPCReceived
deriving DecidableEq, Repr

/-- libp2p `NotifyHandler`: which connection handlers of a peer receive an
event. -/
inductive NotifyHandlerTarget where
  | one (c : ConnectionId)
  | any
  | all
deriving DecidableEq, Repr

/-- libp2p `DialPeerCondition`; the behaviour only uses `Disconnected`. -/
inductive DialPeerCondition where
  | disconnected
deriving DecidableEq, Repr

/-- `NetworkBehaviourAction` of the RPC sub-behaviour (`rpc/mod.rs`): the RPC
behaviour only ever pushes `NotifyHandler` and `GenerateEvent` actions. -/
inductive RPCAction where
  | notifyHandler (peer_id : PeerId) (handler : NotifyHandlerTarget) (event : RPCSend)
  | generateEvent (msg : RPCMessage)
deriving DecidableEq, Repr

/-- Public request wrapper (`behaviour/mod.rs`, `pub enum Request`): only
Status and Goodbye cross the core boundary. -/
inductive Request where
  | status (msg : List Nat)
  | goodbye (reason : List Nat)
deriving DecidableEq, Repr

/-- Public response wrapper (`behaviour/mod.rs`, `pub enum Response`): only
Status crosses the core boundary. -/
inductive Response where
  | status (msg : List Nat)
deriving DecidableEq, Repr

/-- `impl From<Request> for RPCRequest` (`behaviour/mod.rs`). -/
def Request.toRPC : Request → RPCRequest
  | .goodbye r => .goodbye r
  | .status s => .status s

/-- `impl From<Response> for RPCCodedResponse` (`behaviour/mod.rs`). -/
def Response.toRPC : Response → RPCCodedResponse
  | .status s => .success (.status s)

/-- `BehaviourEvent` (`behaviour/mod.rs`): the public events of the core. -/
inductive BehaviourEvent where
  | rpcFailed (id : RequestId) (peer_id : PeerId) (error : RPCError)
  | requestReceived (peer_id : PeerId) (id : PeerRequestId) (request : Request)
  | responseReceived (peer_id : PeerId) (id : RequestId) (response : Response)
  | pubsubMessage (id : MessageId) (source : PeerId) (topics : List TopicHash)
      (message : List Nat)
  | peerSubscribed (peer_id : PeerId) (topic : TopicHash)
  | statusPeer (peer_id : PeerId)
deriving DecidableEq, Repr

/-- `DelegateIn` (`behaviour/handler.rs`): the tagged envelope routed to the
matching sub-handler; only the RPC payload is inspected by our claims, the
gossipsub and identify payloads stay opaque. -/
inductive DelegateIn where
  | gossipsub (n : Nat)
  | rpc (s : RPCSend)
  | identify (n : Nat)
deriving DecidableEq, Repr

/-- `BehaviourHandlerIn` (`behaviour/handler.rs`): input from behaviour to
the composite handler — a delegated payload, or `Shutdown` with an optional
final outbound request. -/
inductive BehaviourHandlerIn where
  | delegate (d : DelegateIn)
  | shutdown (final : Option (RequestId × RPCRequest))
deriving DecidableEq, Repr

/-- `NetworkBehaviourAction` of the composite behaviour
(`behaviour/mod.rs`, `NBAction`). -/
inductive BAction where
  | dialAddress (address : Multiaddr)
  | dialPeer (peer_id : PeerId) (condition : DialPeerCondition)
  | notifyHandler (peer_id : PeerId) (handler : NotifyHandlerTarget)
      (event : BehaviourHandlerIn)
  | reportObservedAddr (address : Multiaddr)
  | generateEvent (event : BehaviourEvent)
deriving DecidableEq, Repr

/-- `PeerManagerEvent` (peer manager, consumed in `Behaviour::custom_poll`). -/
inductive PeerManagerEvent where
  | dial (peer_id : PeerId)
  | socketUpdated (address : Multiaddr)
  | status (peer_id : PeerId)
  | ping (peer_id : PeerId)
  | metaData (peer_id : PeerId)
  | disconnectPeer (peer_id : PeerId)
deriving DecidableEq, Repr

/-- Identify info (libp2p `IdentifyInfo`); the core reads and truncates
`listen_addrs` and forwards the whole record, so the other fields are kept
as one opaque component. -/
structure IdentifyInfo where
  listen_addrs : List Multiaddr
  rest : Nat
deriving DecidableEq, Repr

/-- `IdentifyEvent` (libp2p identify) as matched in
`Behaviour::on_identify_event`. -/
inductive IdentifyEvent where
  | received (peer_id : PeerId) (info : IdentifyInfo) (observed_addr : Multiaddr)
  | sent (peer_id : PeerId)
  | error (peer_id : PeerId)
deriving DecidableEq, Repr

/-- Gossipsub message payload (libp2p `GossipsubMessage`): the fields the core
reads (`gs_msg.topics`, `gs_msg.data`). -/
structure GossipsubMessage where
  topics : List TopicHash
  data : List Nat
deriving DecidableEq, Repr

/-- `GossipsubEvent` (libp2p gossipsub) as matched in
`Behaviour::on_gossip_event`. -/
inductive GossipsubEvent where
  | message (propagation_source : PeerId) (id : MessageId) (gs_msg : GossipsubMessage)
  | subscribed (peer_id : PeerId) (topic : TopicHash)
  | unsubscribed (peer_id : PeerId) (topic : TopicHash)
deriving DecidableEq, Repr

/-- Calls the behaviour makes into the peer manager, recorded as a log
(`peer_manager._disconnecting_peer`, `peer_manager.peer_statusd`,
`peer_manager.handle_rpc_error`, `peer_manager.identify`). -/
inductive PMCall where
  | disconnectingPeer (peer_id : PeerId)
  | peerStatusd (peer_id : PeerId)
  | handleRpcError (peer_id : PeerId) (proto : Protocol) (error : RPCError)
  | identify (peer_id : PeerId) (info : IdentifyInfo)
deriving DecidableEq, Repr

/-- The RPC sub-behaviour (`rpc/mod.rs`, `pub struct RPC`): a queue of
actions processed one per poll (`Vec` pushed at the back, `remove(0)` at the
front). -/
structure RPC where
  events : List RPCAction
deriving DecidableEq, Repr

/-- `RPC::send_response` (`rpc/mod.rs` lines 100–111): enqueue a
`NotifyHandler` targeting exactly the `ConnectionId` of the `PeerRequestId`,
forwarding the `SubstreamId` in the payload. -/
def RPC.send_response (s : RPC) (peer_id : PeerId) (id : PeerRequestId)
    (event : RPCCodedResponse) : RPC :=
  { s with events := s.events ++
      [.notifyHandler peer_id (.one id.1) (.response id.2 event)] }

/-- `RPC::send_request` (`rpc/mod.rs` lines 116–122): enqueue a
`NotifyHandler` with handler target `Any`. -/
def RPC.send_request (s : RPC) (peer_id : PeerId) (request_id : RequestId)
    (event : RPCRequest) : RPC :=
  { s with events := s.events ++
      [.notifyHandler peer_id .any (.request request_id event)] }

/-- `RPC::inject_connected` (`rpc/mod.rs` lines 143–152): automatically
enqueue an internal metadata request with the sentinel id. -/
def RPC.inject_connected (s : RPC) (peer_id : PeerId) : RPC :=
  { s with events := s.events ++
      [.notifyHandler peer_id .any (.request .behaviour .metaData)] }

/-- The gossip engine's subscription state.  Modelled from the spec: the
gossipsub engine is an external collaborator (libp2p `Gossipsub`, not part of
this repository); per the spec, `subscribe`/`unsubscribe` "return the
engine's accept/reject boolean", i.e. whether the subscription state actually
changed. -/
structure GossipsubEngine where
  subscriptions : Finset GossipTopic
deriving DecidableEq

/-- Modelled from the spec: `Gossipsub::subscribe` — records the topic as
subscribed; accepts (returns `true`) exactly when not already subscribed. -/
def GossipsubEngine.subscribe (g : GossipsubEngine) (t : GossipTopic) :
    Bool × GossipsubEngine :=
  (if t ∈ g.subscriptions then false else true,
   { subscriptions := insert t g.subscriptions })

/-- Modelled from the spec: `Gossipsub::unsubscribe` — removes the topic;
accepts (returns `true`) exactly when it was subscribed. -/
def GossipsubEngine.unsubscribe (g : GossipsubEngine) (t : GossipTopic) :
    Bool × GossipsubEngine :=
  (if t ∈ g.subscriptions then true else false,
   { subscriptions := g.subscriptions.erase t })

/-- Snapshot of the `NetworkGlobals` fields the behaviour reads at
construction (`types/globals.rs`): the current metadata and ping payload,
and the shared subscription set. -/
structure NetworkGlobalsSnapshot where
  meta_data : List Nat
  ping_data : List Nat
deriving DecidableEq, Repr

/-- The composite behaviour state (`behaviour/mod.rs`, `pub struct
Behaviour`).  `pm_events` is the stream of events the peer manager will
yield to `custom_poll`; `pm_calls` is the log of synchronous calls the
behaviour makes into the peer manager.  `gossipsub_subscriptions` is the
shared `network_globals.gossipsub_subscriptions` set. -/
structure Behaviour where
  gossipsub : GossipsubEngine
  mothra_rpc : RPC
  pm_events : List PeerManagerEvent
  pm_calls : List PMCall
  events : List BehaviourEvent
  peers_to_dc : List PeerId
  meta_data : List Nat
  ping_data : List Nat
  seen_gossip_messages : List MessageId
  gossipsub_subscriptions : Finset GossipTopic
deriving DecidableEq

/-- `Behaviour::new` (`behaviour/mod.rs` lines 240–275): snapshots
`network_globals.meta_data` and `network_globals.ping_data` into the cached
fields; all queues start empty. -/
def Behaviour.new (globals : NetworkGlobalsSnapshot) : Behaviour where
  gossipsub := { subscriptions := ∅ }
  mothra_rpc := { events := [] }
  pm_events := []
  pm_calls := []
  events := []
  peers_to_dc := []
  meta_data := globals.meta_data
  ping_data := globals.ping_data
  seen_gossip_messages := []
  gossipsub_subscriptions := ∅

/-- `Behaviour::subscribe` (`behaviour/mod.rs` lines 302–312): insert into the
shared subscription set first, then call the gossip engine and return its
boolean. -/
def Behaviour.subscribe (b : Behaviour) (topic : GossipTopic) :
    Bool × Behaviour :=
  let b1 : Behaviour :=
    { b with gossipsub_subscriptions := insert topic b.gossipsub_subscriptions }
  let r := b1.gossipsub.subscribe topic
  (r.1, { b1 with gossipsub := r.2 })

/-- `Behaviour::unsubscribe` (`behaviour/mod.rs` lines 315–323): remove from
the shared subscription set first, then call the gossip engine and return its
boolean. -/
def Behaviour.unsubscribe (b : Behaviour) (topic : GossipTopic) :
    Bool × Behaviour :=
  let b1 : Behaviour :=
    { b with gossipsub_subscriptions := b.gossipsub_subscriptions.erase topic }
  let r := b1.gossipsub.unsubscribe topic
  (r.1, { b1 with gossipsub := r.2 })

/-- `Behaviour::send_request` (`behaviour/mod.rs` lines 338–340). -/
def Behaviour.send_request (b : Behaviour) (peer_id : PeerId)
    (request_id : RequestId) (request : Request) : Behaviour :=
  { b with mothra_rpc := b.mothra_rpc.send_request peer_id request_id request.toRPC }

/-- `Behaviour::send_successful_response` (`behaviour/mod.rs` lines 343–350). -/
def Behaviour.send_successful_response (b : Behaviour) (peer_id : PeerId)
    (id : PeerRequestId) (response : Response) : Behaviour :=
  { b with mothra_rpc := b.mothra_rpc.send_response peer_id id response.toRPC }

/-- `Behaviour::_send_error_reponse` (`behaviour/mod.rs` lines 353–365). -/
def Behaviour.send_error_reponse (b : Behaviour) (peer_id : PeerId)
    (id : PeerRequestId) (error : Nat) (reason : List Nat) : Behaviour :=
  { b with mothra_rpc :=
      b.mothra_rpc.send_response peer_id id (.fromErrorCode error reason) }

/-- `Behaviour::update_metadata` (`behaviour/mod.rs` lines 397–401): the body
is entirely commented out, so the operation changes nothing. -/
def Behaviour.update_metadata (b : Behaviour) : Behaviour := b

/-- `Behaviour::ping` (`behaviour/mod.rs` lines 404–409): send an RPC Ping
request carrying the cached local ping payload. -/
def Behaviour.ping (b : Behaviour) (id : RequestId) (peer_id : PeerId) :
    Behaviour :=
  { b with mothra_rpc :=
      b.mothra_rpc.send_request peer_id id (.ping b.ping_data) }

/-- `Behaviour::pong` (`behaviour/mod.rs` lines 412–417): respond with
`Success(Pong(ping_data))`, the cached local ping payload, targeting the
originating `PeerRequestId`. -/
def Behaviour.pong (b : Behaviour) (id : PeerRequestId) (peer_id : PeerId) :
    Behaviour :=
  { b with mothra_rpc :=
      b.mothra_rpc.send_response peer_id id (.success (.pong b.ping_data)) }

/-- `Behaviour::send_meta_data_request` (`behaviour/mod.rs` lines 420–425):
an internal MetaData request with the sentinel id `RequestId::Behaviour`. -/
def Behaviour.send_meta_data_request (b : Behaviour) (peer_id : PeerId) :
    Behaviour :=
  { b with mothra_rpc := b.mothra_rpc.send_request peer_id .behaviour .metaData }

/-- `Behaviour::send_meta_data_response` (`behaviour/mod.rs` lines 428–432):
respond with `Success(MetaData(meta_data))`, the cached local metadata. -/
def Behaviour.send_meta_data_response (b : Behaviour) (id : PeerRequestId)
    (peer_id : PeerId) : Behaviour :=
  { b with mothra_rpc :=
      b.mothra_rpc.send_response peer_id id (.success (.metaData b.meta_data)) }

/-- `Behaviour::on_gossip_event` (`behaviour/mod.rs` lines 440–457): a
received gossip message is pushed to the public event queue unconditionally
(the seen-gossip cache is not consulted); `Subscribed` yields
`PeerSubscribed`; `Unsubscribed` is ignored. -/
def Behaviour.on_gossip_event (b : Behaviour) (event : GossipsubEvent) :
    Behaviour :=
  match event with
  | .message propagation_source id gs_msg =>
      { b with events := b.events ++
          [.pubsubMessage id propagation_source gs_msg.topics gs_msg.data] }
  | .subscribed peer_id topic =>
      { b with events := b.events ++ [.peerSubscribed peer_id topic] }
  | .unsubscribed _ _ => b

/-- `Behaviour::propagate_response` (`behaviour/mod.rs` lines 460–468): queue
a `ResponseReceived` only when the id is not the sentinel
`RequestId::Behaviour`. -/
def Behaviour.propagate_response (b : Behaviour) (id : RequestId)
    (peer_id : PeerId) (response : Response) : Behaviour :=
  if id = RequestId.behaviour then b
  else
    { b with events := b.events ++ [.responseReceived peer_id id response] }

/-- `Behaviour::propagate_request` (`behaviour/mod.rs` lines 471–477). -/
def Behaviour.propagate_request (b : Behaviour) (id : PeerRequestId)
    (peer_id : PeerId) (request : Request) : Behaviour :=
  { b with events := b.events ++ [.requestReceived peer_id id request] }

/-- `Behaviour::on_rpc_event` (`behaviour/mod.rs` lines 479–575): classify
every RPC message.  Ping and MetaData requests are answered locally; Goodbye
notifies the peer manager and queues the peer for disconnection without
propagating; Status is propagated.  Pong and MetaData responses are consumed
locally; Status responses are propagated unless the id is the sentinel.
Errors are forwarded to the peer manager, and outbound failures additionally
surface `RPCFailed` for non-sentinel ids. -/
def Behaviour.on_rpc_event (b : Behaviour) (message : RPCMessage) : Behaviour :=
  let peer_id := message.peer_id
  let handler_id := message.conn_id
  match message.event with
  | .error handler_err =>
      match handler_err with
      | .inbound _ proto error =>
          { b with pm_calls := b.pm_calls ++
              [.handleRpcError peer_id proto error] }
      | .outbound id proto error =>
          let b1 : Behaviour :=
            { b with pm_calls := b.pm_calls ++
                [.handleRpcError peer_id proto error] }
          if id = RequestId.behaviour then b1
          else
            { b1 with events := b1.events ++ [.rpcFailed id peer_id error] }
  | .ok (.request id request) =>
      let peer_request_id : PeerRequestId := (handler_id, id)
      match request with
      | .ping _ => b.pong peer_request_id peer_id
      | .metaData => b.send_meta_data_response (handler_id, id) peer_id
      | .goodbye _ =>
          let b1 : Behaviour :=
            { b with pm_calls := b.pm_calls ++ [.disconnectingPeer peer_id] }
          { b1 with peers_to_dc := b1.peers_to_dc ++ [peer_id] }
      | .status msg =>
          let b1 : Behaviour :=
            { b with pm_calls := b.pm_calls ++ [.peerStatusd peer_id] }
          b1.propagate_request peer_request_id peer_id (.status msg)
  | .ok (.response id resp) =>
      match resp with
      | .pong _ => b
      | .metaData _ => b
      | .status msg =>
          let b1 : Behaviour :=
            { b with pm_calls := b.pm_calls ++ [.peerStatusd peer_id] }
          b1.propagate_response id peer_id (.status msg)

/-- The peer-manager event loop inside `Behaviour::custom_poll`
(`behaviour/mod.rs` lines 592–644): consume peer-manager events until one
yields an action; `Ping` and `MetaData` perform internal sends and continue
the loop.  When the manager is drained, pop the public event queue. -/
def Behaviour.customPollLoop : List PeerManagerEvent → Behaviour →
    Option BAction × Behaviour
  | [], b =>
      match b.events with
      | [] => (none, { b with pm_events := [] })
      | e :: es =>
          (some (.generateEvent e), { b with pm_events := [], events := es })
  | ev :: rest, b =>
      match ev with
      | .dial peer_id =>
          (some (.dialPeer peer_id .disconnected), { b with pm_events := rest })
      | .socketUpdated address =>
          (some (.reportObservedAddr address), { b with pm_events := rest })
      | .status peer_id =>
          (some (.generateEvent (.statusPeer peer_id)),
           { b with pm_events := rest })
      | .ping peer_id =>
          Behaviour.customPollLoop rest (b.ping .behaviour peer_id)
      | .metaData peer_id =>
          Behaviour.customPollLoop rest (b.send_meta_data_request peer_id)
      | .disconnectPeer peer_id =>
          (some (.notifyHandler peer_id .any
              (.shutdown (some (.behaviour, .goodbye [])))),
           { b with pm_events := rest,
                    peers_to_dc := b.peers_to_dc ++ [peer_id] })

/-- `Behaviour::custom_poll` (`behaviour/mod.rs` lines 578–645): first drain
the pending-disconnect queue (front pop) and issue
`NotifyHandler{All, Shutdown(None)}`; otherwise run the peer-manager loop and
finally the public event queue. -/
def Behaviour.custom_poll (b : Behaviour) : Option BAction × Behaviour :=
  match b.peers_to_dc with
  | peer_id :: rest =>
      (some (.notifyHandler peer_id .all (.shutdown none)),
       { b with peers_to_dc := rest })
  | [] => Behaviour.customPollLoop b.pm_events b

/-- `const MAX_IDENTIFY_ADDRESSES: usize = 10;` (`behaviour/mod.rs` line 33). -/
def MAX_IDENTIFY_ADDRESSES : Nat := 10

/-- `Behaviour::on_identify_event` (`behaviour/mod.rs` lines 647–675): on
`Received`, truncate `listen_addrs` in place to `MAX_IDENTIFY_ADDRESSES` when
it exceeds the bound, then hand `(peer_id, info)` to the peer manager; `Sent`
and `Error` are ignored. -/
def Behaviour.on_identify_event (b : Behaviour) (event : IdentifyEvent) :
    Behaviour :=
  match event with
  | .received peer_id info _ =>
      let info' :=
        if info.listen_addrs.length > MAX_IDENTIFY_ADDRESSES then
          { info with listen_addrs := info.listen_addrs.take MAX_IDENTIFY_ADDRESSES }
        else info
      { b with pm_calls := b.pm_calls ++ [.identify peer_id info'] }
  | .sent _ => b
  | .error _ => b

/-- The operations that can act on a `Behaviour` after construction: the
event handlers, the poll step, and the public API.  `pmYield` models the peer
manager making an event available to `custom_poll`; `injectConnected` models
the swarm delegating a connect to the RPC sub-behaviour
(`RPC::inject_connected`). -/
inductive Op where
  | rpcEvent (m : RPCMessage)
  | gossipEvent (e : GossipsubEvent)
  | identifyEvent (e : IdentifyEvent)
  | customPoll
  | subscribeTopic (t : GossipTopic)
  | unsubscribeTopic (t : GossipTopic)
  | sendRequest (p : PeerId) (id : RequestId) (r : Request)
  | sendSuccessfulResponse (p : PeerId) (id : PeerRequestId) (r : Response)
  | sendErrorReponse (p : PeerId) (id : PeerRequestId) (code : Nat) (reason : List Nat)
  | updateMetadata
  | pmYield (e : PeerManagerEvent)
  | injectConnected (p : PeerId)
deriving DecidableEq

/-- One operation applied to the behaviour state (return values and emitted
actions are dropped; only the successor state is kept). -/
def Behaviour.applyOp (b : Behaviour) : Op → Behaviour
  | .rpcEvent m => b.on_rpc_event m
  | .gossipEvent e => b.on_gossip_event e
  | .identifyEvent e => b.on_identify_event e
  | .customPoll => (b.custom_poll).2
  | .subscribeTopic t => (b.subscribe t).2
  | .unsubscribeTopic t => (b.unsubscribe t).2
  | .sendRequest p id r => b.send_request p id r
  | .sendSuccessfulResponse p id r => b.send_successful_response p id r
  | .sendErrorReponse p id c reason => b.send_error_reponse p id c reason
  | .updateMetadata => b.update_metadata
  | .pmYield e => { b with pm_events := b.pm_events ++ [e] }
  | .injectConnected p => { b with mothra_rpc := b.mothra_rpc.inject_connected p }

/-- A run of the behaviour: the state reached after a sequence of
operations. -/
def Behaviour.run (b : Behaviour) : List Op → Behaviour
  | [] => b
  | op :: ops => Behaviour.run (b.applyOp op) ops

/-- Concrete globals snapshot used by witnesses: local metadata `[0x01]`,
local ping payload `[0xAA, 0xBB]` (the spec's end-to-end ping scenario). -/
def exampleGlobals : NetworkGlobalsSnapshot where
  meta_data := [1]
  ping_data := [170, 187]

/-- Concrete freshly constructed behaviour used by witnesses. -/
def exampleBehaviour : Behaviour := Behaviour.new exampleGlobals

/-- Concrete behaviour whose peer manager is about to yield
`DisconnectPeer(4)`. -/
def exampleDcBehaviour : Behaviour :=
  { exampleBehaviour with pm_events := [.disconnectPeer 4] }

/-- Concrete inbound Goodbye request from peer 5 on connection 1,
substream 9. -/
def exampleGoodbyeMsg : RPCMessage where
  peer_id := 5
  conn_id := 1
  event := .ok (.request 9 (.goodbye [4]))

/-- Concrete identify info with 11 listen addresses. -/
def exampleInfo : IdentifyInfo where
  listen_addrs := [0, 1, 2, 3, 4, 5, 6, 7, 8, 9, 10]
  rest := 0

/-- C1: for every inbound RPC request received on connection `C` with
substream id `S`, any response the core emits for that request is routed to
handler-target `One(C)` and carries substream id `S`: `RPC::send_response`
always targets exactly the `(ConnectionId, SubstreamId)` it is given, and
every RPC action `on_rpc_event` enqueues while processing an inbound request
is a response addressed to the originating pair. -/
theorem c1_response_carries_request_id (s : RPC) (peer : PeerId)
    (id : PeerRequestId) (event : RPCCodedResponse) (b : Behaviour)
    (C : ConnectionId) (S : SubstreamId) (req : RPCRequest) :
    (s.send_response peer id event).events
      = s.events ++ [.notifyHandler peer (.one id.1) (.response id.2 event)]
    ∧ ∀ a ∈ List.drop b.mothra_rpc.events.length
          (b.on_rpc_event ⟨peer, C, .ok (.request S req)⟩).mothra_rpc.events,
        ∃ coded, a = RPCAction.notifyHandler peer (.one C) (.response S coded) := by
  refine ⟨by simp [RPC.send_response], ?_⟩
  intro a ha
  cases req with
  | ping d =>
      simp [Behaviour.on_rpc_event, Behaviour.pong, RPC.send_response,
        List.drop_left] at ha
      exact ⟨_, ha⟩
  | metaData =>
      simp [Behaviour.on_rpc_event, Behaviour.send_meta_data_response,
        RPC.send_response, List.drop_left] at ha
      exact ⟨_, ha⟩
  | goodbye r =>
      simp [Behaviour.on_rpc_event, List.drop_length] at ha
  | status m =>
      simp [Behaviour.on_rpc_event, Behaviour.propagate_request,
        List.drop_length] at ha

/-- Witness for C1: the spec's ping scenario — connection 3, substream 7,
local ping payload `[0xAA, 0xBB]` — yields a response addressed to
`One(3)` with substream id 7. -/
theorem c1_response_carries_request_id_witness :
    ∃ coded, RPCAction.notifyHandler 5 (NotifyHandlerTarget.one 3)
        (RPCSend.response 7 (RPCCodedResponse.success (RPCResponse.pong [170, 187])))
      = RPCAction.notifyHandler 5 (.one 3) (.response 7 coded) := by
  have h := (c1_response_carries_request_id { events := [] } 5 (3, 7)
      (.success (.pong [])) exampleBehaviour 3 7 (.ping [17, 34])).2
  exact h _ (by decide)

/-- C2: a completed or failed outbound request with the sentinel
`RequestId::Behaviour` never surfaces as a public `ResponseReceived` or
`RPCFailed`; for a non-sentinel id the corresponding event is pushed.  The
public `Request` type converts only to Status/Goodbye, so no non-sentinel
Ping or MetaData request can be issued through the public API. -/
theorem c2_sentinel_never_surfaced (b : Behaviour) (peer : PeerId)
    (C : ConnectionId) (proto : Protocol) (err : RPCError) (n : Nat)
    (resp : RPCResponse) (m d : List Nat) :
    ((b.on_rpc_event ⟨peer, C, .error (.outbound .behaviour proto err)⟩).events
        = b.events)
    ∧ ((b.on_rpc_event ⟨peer, C, .ok (.response .behaviour resp)⟩).events
        = b.events)
    ∧ ((b.on_rpc_event
          ⟨peer, C, .error (.outbound (.application n) proto err)⟩).events
        = b.events ++ [.rpcFailed (.application n) peer err])
    ∧ ((b.on_rpc_event
          ⟨peer, C, .ok (.response (.application n) (.status m))⟩).events
        = b.events ++ [.responseReceived peer (.application n) (.status m)])
    ∧ (Request.status m).toRPC ≠ RPCRequest.ping d
    ∧ (Request.status m).toRPC ≠ RPCRequest.metaData
    ∧ (Request.goodbye m).toRPC ≠ RPCRequest.ping d
    ∧ (Request.goodbye m).toRPC ≠ RPCRequest.metaData := by
  refine ⟨?_, ?_, ?_, ?_, by simp [Request.toRPC], by simp [Request.toRPC],
    by simp [Request.toRPC], by simp [Request.toRPC]⟩
  · simp [Behaviour.on_rpc_event]
  · cases resp <;> simp [Behaviour.on_rpc_event, Behaviour.propagate_response]
  · simp [Behaviour.on_rpc_event]
  · simp [Behaviour.on_rpc_event, Behaviour.propagate_response]

/-- Witness for C2: a sentinel outbound timeout surfaces nothing, while the
same failure with application id 42 pushes `RPCFailed`. -/
theorem c2_sentinel_never_surfaced_witness :
    ((exampleBehaviour.on_rpc_event
        ⟨5, 3, .error (.outbound .behaviour .status .streamTimeout)⟩).events
      = exampleBehaviour.events)
    ∧ ((exampleBehaviour.on_rpc_event
        ⟨5, 3, .error (.outbound (.application 42) .status .streamTimeout)⟩).events
      = exampleBehaviour.events
        ++ [.rpcFailed (.application 42) 5 .streamTimeout]) := by
  have h := c2_sentinel_never_surfaced exampleBehaviour 5 3 .status
    .streamTimeout 42 (.pong []) [9] []
  exact ⟨h.1, h.2.2.1⟩

/-- C3: a peer-manager `DisconnectPeer(p)` makes the poll push `p` onto the
pending-disconnect queue and return `NotifyHandler{Any,
Shutdown(Some((Behaviour, Goodbye([]))))}`; the next poll first drains the
queue and returns `NotifyHandler{All, Shutdown(None)}`, leaving the remaining
peer-manager commands untouched. -/
theorem c3_disconnect_two_phase (b : Behaviour) (p : PeerId)
    (rest : List PeerManagerEvent) (h1 : b.peers_to_dc = [])
    (h2 : b.pm_events = .disconnectPeer p :: rest) :
    (b.custom_poll).1
      = some (.notifyHandler p .any (.shutdown (some (.behaviour, .goodbye []))))
    ∧ (b.custom_poll).2.peers_to_dc = [p]
    ∧ (b.custom_poll).2.pm_events = rest
    ∧ ((b.custom_poll).2.custom_poll).1
      = some (.notifyHandler p .all (.shutdown none))
    ∧ ((b.custom_poll).2.custom_poll).2.peers_to_dc = []
    ∧ ((b.custom_poll).2.custom_poll).2.pm_events = rest := by
  refine ⟨?_, ?_, ?_, ?_, ?_, ?_⟩ <;>
    simp [Behaviour.custom_poll, Behaviour.customPollLoop, h1, h2]

/-- Witness for C3: concrete two-phase disconnect of peer 4. -/
theorem c3_disconnect_two_phase_witness :
    (exampleDcBehaviour.custom_poll).1
      = some (.notifyHandler 4 .any (.shutdown (some (.behaviour, .goodbye []))))
    ∧ (exampleDcBehaviour.custom_poll).2.peers_to_dc = [4]
    ∧ (exampleDcBehaviour.custom_poll).2.pm_events = []
    ∧ ((exampleDcBehaviour.custom_poll).2.custom_poll).1
      = some (.notifyHandler 4 .all (.shutdown none))
    ∧ ((exampleDcBehaviour.custom_poll).2.custom_poll).2.peers_to_dc = []
    ∧ ((exampleDcBehaviour.custom_poll).2.custom_poll).2.pm_events = [] :=
  c3_disconnect_two_phase exampleDcBehaviour 4 [] rfl rfl

/-- C4: an inbound `Goodbye` notifies the peer manager that the peer is
disconnecting, appends the peer to the pending-disconnect queue, emits no
public event, and sends nothing over RPC. -/
theorem c4_goodbye_disconnects_silently (b : Behaviour) (peer : PeerId)
    (C : ConnectionId) (S : SubstreamId) (reason : List Nat) :
    (b.on_rpc_event ⟨peer, C, .ok (.request S (.goodbye reason))⟩).pm_calls
      = b.pm_calls ++ [.disconnectingPeer peer]
    ∧ (b.on_rpc_event ⟨peer, C, .ok (.request S (.goodbye reason))⟩).peers_to_dc
      = b.peers_to_dc ++ [peer]
    ∧ (b.on_rpc_event ⟨peer, C, .ok (.request S (.goodbye reason))⟩).events
      = b.events
    ∧ (b.on_rpc_event ⟨peer, C, .ok (.request S (.goodbye reason))⟩).mothra_rpc
      = b.mothra_rpc := by
  refine ⟨?_, ?_, ?_, ?_⟩ <;> simp [Behaviour.on_rpc_event]

/-- C5: an inbound `Ping` enqueues exactly one response,
`Success(Pong(ping_data))` with the cached local ping payload, addressed to
the originating `(ConnectionId, SubstreamId)`; no public event, no peer
manager call, no disconnect; the received payload is not interpreted. -/
theorem c5_ping_terminated_locally (b : Behaviour) (peer : PeerId)
    (C : ConnectionId) (S : SubstreamId) (payload payload2 : List Nat) :
    (b.on_rpc_event ⟨peer, C, .ok (.request S (.ping payload))⟩).mothra_rpc.events
      = b.mothra_rpc.events
        ++ [.notifyHandler peer (.one C) (.response S (.success (.pong b.ping_data)))]
    ∧ (b.on_rpc_event ⟨peer, C, .ok (.request S (.ping payload))⟩).events
      = b.events
    ∧ (b.on_rpc_event ⟨peer, C, .ok (.request S (.ping payload))⟩).pm_calls
      = b.pm_calls
    ∧ (b.on_rpc_event ⟨peer, C, .ok (.request S (.ping payload))⟩).peers_to_dc
      = b.peers_to_dc
    ∧ b.on_rpc_event ⟨peer, C, .ok (.request S (.ping payload))⟩
      = b.on_rpc_event ⟨peer, C, .ok (.request S (.ping payload2))⟩ := by
  refine ⟨?_, ?_, ?_, ?_, ?_⟩ <;>
    simp [Behaviour.on_rpc_event, Behaviour.pong, RPC.send_response]

/-- C6: `subscribe`/`unsubscribe` update the shared subscription set before
calling the gossip engine, return the engine's accept/reject boolean, and
leave the set and the engine agreeing on the operated topic afterwards; when
set and engine agreed beforehand they agree on every topic afterwards. -/
theorem c6_subscription_no_drift (b : Behaviour) (t : GossipTopic) :
    (b.subscribe t).1 = (b.gossipsub.subscribe t).1
    ∧ t ∈ (b.subscribe t).2.gossipsub_subscriptions
    ∧ t ∈ (b.subscribe t).2.gossipsub.subscriptions
    ∧ (b.unsubscribe t).1 = (b.gossipsub.unsubscribe t).1
    ∧ t ∉ (b.unsubscribe t).2.gossipsub_subscriptions
    ∧ t ∉ (b.unsubscribe t).2.gossipsub.subscriptions
    ∧ (b.gossipsub_subscriptions = b.gossipsub.subscriptions →
        (b.subscribe t).2.gossipsub_subscriptions
          = (b.subscribe t).2.gossipsub.subscriptions
        ∧ (b.unsubscribe t).2.gossipsub_subscriptions
          = (b.unsubscribe t).2.gossipsub.subscriptions) := by
  refine ⟨rfl, ?_, ?_, rfl, ?_, ?_, fun h => ⟨?_, ?_⟩⟩
  · simp [Behaviour.subscribe, GossipsubEngine.subscribe]
  · simp [Behaviour.subscribe, GossipsubEngine.subscribe]
  · simp [Behaviour.unsubscribe, GossipsubEngine.unsubscribe]
  · simp [Behaviour.unsubscribe, GossipsubEngine.unsubscribe]
  · simp [Behaviour.subscribe, GossipsubEngine.subscribe, h]
  · simp [Behaviour.unsubscribe, GossipsubEngine.unsubscribe, h]

/-- Witness for C6: subscribing topic 0 on a fresh behaviour puts it in both
the shared set and the engine, and the two agree afterwards. -/
theorem c6_subscription_no_drift_witness :
    0 ∈ (exampleBehaviour.subscribe 0).2.gossipsub_subscriptions
    ∧ (exampleBehaviour.subscribe 0).2.gossipsub_subscriptions
      = (exampleBehaviour.subscribe 0).2.gossipsub.subscriptions := by
  have h := c6_subscription_no_drift exampleBehaviour 0
  exact ⟨h.2.1, (h.2.2.2.2.2.2 rfl).1⟩

/-- C7 counterexample: the claim "a peer appears at most once in the
pending-disconnect queue at every reachable state" is false — two inbound
Goodbye requests from peer 5 (reachable from a fresh behaviour) each push the
peer unconditionally, giving it count 2 in the queue. -/
theorem c7_counterexample :
    ¬ (∀ (g : NetworkGlobalsSnapshot) (ops : List Op) (p : PeerId),
        List.count p ((Behaviour.new g).run ops).peers_to_dc ≤ 1) := by
  intro h
  have h2 := h { meta_data := [], ping_data := [] }
    [.rpcEvent exampleGoodbyeMsg, .rpcEvent exampleGoodbyeMsg] 5
  revert h2
  decide

/-- C7 (amended): pushes onto the pending-disconnect queue are NOT
deduplicated — an inbound Goodbye and a peer-manager `DisconnectPeer` each
append the peer unconditionally, even when it is already queued, so a peer
may appear more than once. -/
theorem c7_amended_unconditional_append (b : Behaviour) (peer : PeerId)
    (C : ConnectionId) (S : SubstreamId) (reason : List Nat)
    (rest : List PeerManagerEvent) (h1 : b.peers_to_dc = [])
    (h2 : b.pm_events = .disconnectPeer peer :: rest) :
    (b.on_rpc_event ⟨peer, C, .ok (.request S (.goodbye reason))⟩).peers_to_dc
      = b.peers_to_dc ++ [peer]
    ∧ (b.custom_poll).2.peers_to_dc = b.peers_to_dc ++ [peer] := by
  constructor
  · simp [Behaviour.on_rpc_event]
  · simp [Behaviour.custom_poll, Behaviour.customPollLoop, h1, h2]

/-- Witness for the amended C7: both push sites append peer 4. -/
theorem c7_amended_unconditional_append_witness :
    (exampleDcBehaviour.on_rpc_event
        ⟨4, 1, .ok (.request 9 (.goodbye [4]))⟩).peers_to_dc
      = exampleDcBehaviour.peers_to_dc ++ [4]
    ∧ (exampleDcBehaviour.custom_poll).2.peers_to_dc
      = exampleDcBehaviour.peers_to_dc ++ [4] :=
  c7_amended_unconditional_append exampleDcBehaviour 4 1 9 [4] [] rfl rfl

/-- C8: a received gossip message is appended to the public event queue
unconditionally — for every behaviour state, including any contents of the
seen-gossip cache, which is left untouched and never drops a message. -/
theorem c8_gossip_message_unconditional (b : Behaviour) (src : PeerId)
    (id : MessageId) (topics : List TopicHash) (data : List Nat) :
    (b.on_gossip_event (.message src id ⟨topics, data⟩)).events
      = b.events ++ [.pubsubMessage id src topics data]
    ∧ (b.on_gossip_event (.message src id ⟨topics, data⟩)).seen_gossip_messages
      = b.seen_gossip_messages :=
  ⟨rfl, rfl⟩

/-- C9: `MAX_IDENTIFY_ADDRESSES = 10`; identify info with more than 10 listen
addresses is handed to the peer manager truncated to exactly 10, and info
with at most 10 addresses is handed over unchanged. -/
theorem c9_identify_truncation (b : Behaviour) (peer : PeerId)
    (info : IdentifyInfo) (obs : Multiaddr) :
    MAX_IDENTIFY_ADDRESSES = 10
    ∧ (info.listen_addrs.length > 10 →
        (b.on_identify_event (.received peer info obs)).pm_calls
          = b.pm_calls
            ++ [.identify peer { info with listen_addrs := info.listen_addrs.take 10 }]
        ∧ (info.listen_addrs.take 10).length = 10)
    ∧ (info.listen_addrs.length ≤ 10 →
        (b.on_identify_event (.received peer info obs)).pm_calls
          = b.pm_calls ++ [.identify peer info]) := by
  refine ⟨rfl, fun h => ⟨?_, ?_⟩, fun h => ?_⟩
  · have hc : info.listen_addrs.length > MAX_IDENTIFY_ADDRESSES := h
    simp only [Behaviour.on_identify_event]
    rw [if_pos hc]
    simp only [MAX_IDENTIFY_ADDRESSES]
  · rw [List.length_take]
    omega
  · have hc : ¬ info.listen_addrs.length > MAX_IDENTIFY_ADDRESSES := by
      simp only [MAX_IDENTIFY_ADDRESSES]
      omega
    simp only [Behaviour.on_identify_event]
    rw [if_neg hc]

/-- Witness for C9: 11 addresses are truncated to 10 before the peer-manager
handoff. -/
theorem c9_identify_truncation_witness :
    (exampleBehaviour.on_identify_event (.received 5 exampleInfo 0)).pm_calls
      = exampleBehaviour.pm_calls
        ++ [.identify 5 { exampleInfo with
              listen_addrs := exampleInfo.listen_addrs.take 10 }]
    ∧ (exampleInfo.listen_addrs.take 10).length = 10 :=
  (c9_identify_truncation exampleBehaviour 5 exampleInfo 0).2.1 (by decide)

/-- The peer-manager loop of `custom_poll` never touches the cached
`meta_data` and `ping_data` fields. -/
theorem customPollLoop_frame (pm : List PeerManagerEvent) (b : Behaviour) :
    (Behaviour.customPollLoop pm b).2.meta_data = b.meta_data
    ∧ (Behaviour.customPollLoop pm b).2.ping_data = b.ping_data := by
  induction pm generalizing b with
  | nil => cases hb : b.events <;> simp [Behaviour.customPollLoop, hb]
  | cons e rest ih =>
      cases e with
      | dial p => simp [Behaviour.customPollLoop]
      | socketUpdated a => simp [Behaviour.customPollLoop]
      | status p => simp [Behaviour.customPollLoop]
      | ping p =>
          simpa [Behaviour.customPollLoop, Behaviour.ping, RPC.send_request]
            using ih (b.ping .behaviour p)
      | metaData p =>
          simpa [Behaviour.customPollLoop, Behaviour.send_meta_data_request,
            RPC.send_request] using ih (b.send_meta_data_request p)
      | disconnectPeer p => simp [Behaviour.customPollLoop]

/-- `on_rpc_event` never touches the cached `meta_data` and `ping_data`
fields. -/
theorem on_rpc_event_frame (b : Behaviour) (m : RPCMessage) :
    (b.on_rpc_event m).meta_data = b.meta_data
    ∧ (b.on_rpc_event m).ping_data = b.ping_data := by
  obtain ⟨p, c, e⟩ := m
  cases e with
  | error he =>
      cases he with
      | inbound i pr er => simp [Behaviour.on_rpc_event]
      | outbound i pr er =>
          by_cases h : i = RequestId.behaviour <;>
            simp [Behaviour.on_rpc_event, h]
  | ok r =>
      cases r with
      | request id req =>
          cases req <;>
            simp [Behaviour.on_rpc_event, Behaviour.pong,
              Behaviour.send_meta_data_response, RPC.send_response,
              Behaviour.propagate_request]
      | response id resp =>
          cases resp with
          | pong d => simp [Behaviour.on_rpc_event]
          | metaData d => simp [Behaviour.on_rpc_event]
          | status msg =>
              by_cases h : id = RequestId.behaviour <;>
                simp [Behaviour.on_rpc_event, Behaviour.propagate_response, h]

/-- No operation of the behaviour touches the cached `meta_data` and
`ping_data` fields. -/
theorem applyOp_frame (b : Behaviour) (op : Op) :
    (b.applyOp op).meta_data = b.meta_data
    ∧ (b.applyOp op).ping_data = b.ping_data := by
  cases op with
  | rpcEvent m => simpa [Behaviour.applyOp] using on_rpc_event_frame b m
  | gossipEvent e => cases e <;> simp [Behaviour.applyOp, Behaviour.on_gossip_event]
  | identifyEvent e => cases e <;> simp [Behaviour.applyOp, Behaviour.on_identify_event]
  | customPoll =>
      cases hd : b.peers_to_dc with
      | nil =>
          simpa [Behaviour.applyOp, Behaviour.custom_poll, hd]
            using customPollLoop_frame b.pm_events b
      | cons p rest => simp [Behaviour.applyOp, Behaviour.custom_poll, hd]
  | subscribeTopic t =>
      simp [Behaviour.applyOp, Behaviour.subscribe, GossipsubEngine.subscribe]
  | unsubscribeTopic t =>
      simp [Behaviour.applyOp, Behaviour.unsubscribe, GossipsubEngine.unsubscribe]
  | sendRequest p id r =>
      simp [Behaviour.applyOp, Behaviour.send_request, RPC.send_request]
  | sendSuccessfulResponse p id r =>
      simp [Behaviour.applyOp, Behaviour.send_successful_response, RPC.send_response]
  | sendErrorReponse p id cd rs =>
      simp [Behaviour.applyOp, Behaviour.send_error_reponse, RPC.send_response]
  | updateMetadata => simp [Behaviour.applyOp, Behaviour.update_metadata]
  | pmYield e => simp [Behaviour.applyOp]
  | injectConnected p => simp [Behaviour.applyOp, RPC.inject_connected]

/-- No run of the behaviour touches the cached `meta_data` and `ping_data`
fields. -/
theorem run_frame (ops : List Op) (b : Behaviour) :
    (b.run ops).meta_data = b.meta_data
    ∧ (b.run ops).ping_data = b.ping_data := by
  induction ops generalizing b with
  | nil => exact ⟨rfl, rfl⟩
  | cons op ops ih =>
      have h1 := applyOp_frame b op
      have h2 := ih (b.applyOp op)
      exact ⟨by simp only [Behaviour.run]; rw [h2.1, h1.1],
        by simp only [Behaviour.run]; rw [h2.2, h1.2]⟩

/-- C10: the cached `meta_data` and `ping_data` are never mutated after
`Behaviour::new` (`update_metadata` is a no-op), so after any sequence of
operations every MetaData response still carries the metadata read from
`NetworkGlobals` at construction time, and every Pong still carries the ping
payload read at construction time. -/
theorem c10_meta_ping_frame (g : NetworkGlobalsSnapshot) (ops : List Op)
    (peer : PeerId) (C : ConnectionId) (S : SubstreamId) (payload : List Nat) :
    ((Behaviour.new g).run ops).meta_data = g.meta_data
    ∧ ((Behaviour.new g).run ops).ping_data = g.ping_data
    ∧ Behaviour.update_metadata ((Behaviour.new g).run ops)
      = (Behaviour.new g).run ops
    ∧ (((Behaviour.new g).run ops).on_rpc_event
          ⟨peer, C, .ok (.request S .metaData)⟩).mothra_rpc.events
      = ((Behaviour.new g).run ops).mothra_rpc.events
        ++ [.notifyHandler peer (.one C)
              (.response S (.success (.metaData g.meta_data)))]
    ∧ (((Behaviour.new g).run ops).on_rpc_event
          ⟨peer, C, .ok (.request S (.ping payload))⟩).mothra_rpc.events
      = ((Behaviour.new g).run ops).mothra_rpc.events
        ++ [.notifyHandler peer (.one C)
              (.response S (.success (.pong g.ping_data)))] := by
  have hf := run_frame ops (Behaviour.new g)
  have hm : ((Behaviour.new g).run ops).meta_data = g.meta_data := hf.1
  have hp : ((Behaviour.new g).run ops).ping_data = g.ping_data := hf.2
  refine ⟨hm, hp, rfl, ?_, ?_⟩
  · simp [Behaviour.on_rpc_event, Behaviour.send_meta_data_response,
      RPC.send_response, hm]
  · simp [Behaviour.on_rpc_event, Behaviour.pong, RPC.send_response, hp]

end Mothra
